import Mathlib

/-!
Verification development for the semantic-kernel-python-webapi sample
(`main.py`). The file shallowly embeds the token-cache closure
(`auth_callback_factory` / `auth_callback`), the tool-schema synthesis
lambda of the `chat` handler, and the root redirect, and proves the
specified properties about them.
-/

namespace SKWebApi

/-- An issued access token, as returned by `credential.get_token(scope)`:
an opaque token string together with an absolute expiry timestamp in
whole UTC epoch seconds. -/
structure AccessToken where
  token : String
  expires_on : Int
  deriving DecidableEq, Repr

/-- Outcome of one call to the credential issuance service for a scope:
either a token, or a `ClientAuthenticationError` carrying a list of
human-readable messages (the `getattr(cae, "messages", [])` of the code). -/
inductive IssuerResult where
  | ok (tok : AccessToken)
  | authError (messages : List String)
  deriving DecidableEq, Repr

/-- The exception raised by `auth_callback` on issuer rejection
(`FunctionExecutionException` in the code), carrying its message string. -/
structure FunctionExecutionException where
  message : String
  deriving DecidableEq, Repr

instance : DecidableEq (Except FunctionExecutionException String) := fun x y =>
  match x, y with
  | Except.ok a, Except.ok b =>
      if h : a = b then Decidable.isTrue (by rw [h]) else Decidable.isFalse (by simp [h])
  | Except.error a, Except.error b =>
      if h : a = b then Decidable.isTrue (by rw [h]) else Decidable.isFalse (by simp [h])
  | Except.ok _, Except.error _ => Decidable.isFalse (by simp)
  | Except.error _, Except.ok _ => Decidable.isFalse (by simp)

/-- Result of one invocation of the `auth_callback` closure:
the returned token string or the raised exception, the closure-captured
`auth_token` state after the call, and whether the credential issuer
was consulted during this call. -/
structure CallResult where
  result : Except FunctionExecutionException String
  auth_token : Option AccessToken
  issuerCalled : Bool
  deriving DecidableEq, Repr

/-- The refresh condition of `auth_callback` (main.py line 40):
`if not auth_token or auth_token.expires_on < current_utc_timestamp`.
`auth_token` is `None` before the first success, and an `AccessToken`
(always truthy) afterwards. -/
def needsRefresh (auth_token : Option AccessToken) (current_utc_timestamp : Int) : Bool :=
  match auth_token with
  | none => true
  | some t => decide (t.expires_on < current_utc_timestamp)

/-- One invocation of the closure produced by `auth_callback_factory scope`
(main.py lines 30-53). The closure state `auth_token` and the current
whole-second UTC time are passed explicitly; `credential` models
`DefaultAzureCredential().get_token` as a function from scope to outcome.
If refresh is needed the issuer is called: on success the slot is
overwritten and the fresh token string returned; on
`ClientAuthenticationError` a `FunctionExecutionException` is raised whose
message prefixes the space-joined issuer messages, and the slot keeps its
previous value (the assignment never happened). Otherwise the cached
token string is returned and the slot is untouched. -/
def auth_callback (scope : String) (credential : String → IssuerResult)
    (auth_token : Option AccessToken) (current_utc_timestamp : Int) : CallResult :=
  if needsRefresh auth_token current_utc_timestamp then
    match credential scope with
    | IssuerResult.ok tok => ⟨Except.ok tok.token, some tok, true⟩
    | IssuerResult.authError msgs =>
        ⟨Except.error ⟨"Failed to retrieve the client auth token with messages: "
            ++ String.intercalate " " msgs⟩, auth_token, true⟩
  else
    match auth_token with
    | some t => ⟨Except.ok t.token, some t, false⟩
    | none => ⟨Except.ok "", none, false⟩   -- unreachable: needsRefresh none = true

/-- The captured `auth_token` of a freshly created closure: `auth_token = None`
(main.py line 31). -/
def auth_callback_factory_init : Option AccessToken := none

/-- Scope used for the Azure OpenAI chat service credential (main.py line 68). -/
def cognitiveServicesScope : String := "https://cognitiveservices.azure.com/.default"

/-- Scope used for the dynamic-sessions code-execution tool credential
(main.py line 76). -/
def dynamicSessionsScope : String := "https://dynamicsessions.io/.default"

/-- The two token-cache slots that exist during one `chat` request: the
cognitive-services closure state and the dynamic-sessions closure state. -/
structure ChatRequestCreds where
  cogState : Option AccessToken
  sessState : Option AccessToken
  deriving DecidableEq, Repr

/-- Each call of the `chat` handler (main.py lines 62-78) invokes
`auth_callback_factory` twice, once per scope, so both captured
`auth_token` slots start out as `None` on every request. -/
def chatFreshCreds : ChatRequestCreds :=
  ⟨auth_callback_factory_init, auth_callback_factory_init⟩

/-- One invocation of the cognitive-services callback of a request,
threading its slot through the request state. -/
def stepCog (credential : String → IssuerResult) (c : ChatRequestCreds)
    (now : Int) : CallResult × ChatRequestCreds :=
  let r := auth_callback cognitiveServicesScope credential c.cogState now
  (r, { c with cogState := r.auth_token })

/-- One invocation of the dynamic-sessions callback of a request,
threading its slot through the request state. -/
def stepSess (credential : String → IssuerResult) (c : ChatRequestCreds)
    (now : Int) : CallResult × ChatRequestCreds :=
  let r := auth_callback dynamicSessionsScope credential c.sessState now
  (r, { c with sessState := r.auth_token })

/-- Two sequential `chat` requests, each performing one cognitive-services
credential fetch: because the handler constructs the closures anew on
every request, the second request starts again from `chatFreshCreds`. -/
def twoSequentialChatRequests (credential : String → IssuerResult)
    (t1 t2 : Int) : CallResult × CallResult :=
  ((stepCog credential chatFreshCreds t1).1, (stepCog credential chatFreshCreds t2).1)

/-- Parameter metadata as introspected by the kernel (`p` in the schema
lambda): name, optional primitive type tag (`p.type_`), optional
description, and the required flag (`p.is_required`). -/
structure KernelParameterMetadata where
  name : String
  type_ : Option String
  description : Option String
  is_required : Bool
  deriving DecidableEq, Repr

/-- Function metadata as introspected by the kernel (`f` in the schema
lambda): owning plugin name, function name, optional description, and the
ordered parameter list. -/
structure KernelFunctionMetadata where
  plugin_name : String
  name : String
  description : Option String
  parameters : List KernelParameterMetadata
  deriving DecidableEq, Repr

/-- The literal dict `python_to_json_schema_type` (main.py lines 90-97). -/
def python_to_json_schema_type : List (String × String) :=
  [("str", "string"), ("int", "integer"), ("float", "number"),
   ("bool", "boolean"), ("list", "array"), ("dict", "object")]

/-- `python_to_json_schema_type.get(p.type_, "string")` (main.py line 113):
look the type tag up in the dict, falling back to "string" when the tag is
absent (`None`) or not a key of the dict. -/
def schemaTypeFor (tag : Option String) : String :=
  match tag with
  | none => "string"
  | some t => (python_to_json_schema_type.lookup t).getD "string"

/-- The per-parameter schema object (main.py lines 112-115): its JSON type
and its description, a missing description defaulting to the empty string
(`p.description or ""`). -/
structure PropertySchema where
  type : String
  description : String
  deriving DecidableEq, Repr

/-- The `parameters` object of one tool entry (main.py lines 109-119).
The Python dict comprehension is modelled as an association list in
parameter declaration order (parameter names of one function signature
are distinct). -/
structure ParametersSchema where
  type : String
  properties : List (String × PropertySchema)
  required : List String
  deriving DecidableEq, Repr

/-- The `function` object of one tool entry (main.py lines 106-120). -/
structure FunctionSchema where
  name : String
  description : String
  parameters : ParametersSchema
  deriving DecidableEq, Repr

/-- One synthesized tool entry (main.py lines 104-121). -/
structure ToolEntry where
  type : String
  function : FunctionSchema
  deriving DecidableEq, Repr

/-- Synthesis of one tool entry from one function metadata, exactly the
body of the list comprehension (main.py lines 104-121): the required list
is `[p.name for p in f.parameters if p.is_required]` and descriptions
default to the empty string. -/
def toolEntryOf (f : KernelFunctionMetadata) : ToolEntry :=
  { type := "function"
    function :=
      { name := f.name
        description := f.description.getD ""
        parameters :=
          { type := "object"
            properties := f.parameters.map (fun p =>
                (p.name, PropertySchema.mk (schemaTypeFor p.type_) (p.description.getD "")))
            required := f.parameters.filterMap (fun p =>
                if p.is_required then some p.name else none) } } }

/-- The whole `settings.tools` list (main.py lines 103-123): one entry per
available function, in order. -/
def toolsOf (available : List KernelFunctionMetadata) : List ToolEntry :=
  available.map toolEntryOf

/-- Modelled from the spec: the filtering performed by the semantic-kernel
library when `FunctionChoiceBehavior.Auto(filters=\x7b"excluded_plugins":
["ChatBot"]\x7d)` computes `config.available_functions` (the library code is
not part of this repository). Spec 4.2: "filter out any function whose
owning plugin name is in excluded_plugins". -/
def available_functions (registered : List KernelFunctionMetadata)
    (excluded_plugins : List String) : List KernelFunctionMetadata :=
  registered.filter (fun f => f.plugin_name ∉ excluded_plugins)

/-- The excluded-plugin set the chat handler passes to the behavior filter
(main.py line 88): `filter = \x7b"excluded_plugins": ["ChatBot"]\x7d`. -/
def chatExcludedPlugins : List String := ["ChatBot"]

/-- The plugin name under which the chat entry-point function is registered
(main.py line 82). -/
def chatBotPluginName : String := "ChatBot"

/-- A response of the root route. -/
structure RedirectResponse where
  url : String
  status_code : Nat
  deriving DecidableEq, Repr

/-- Modelled from the spec: the default status code of the web framework
`RedirectResponse` class (FastAPI/Starlette, not part of this repository
sources); spec section 6 states HTTP GET / yields a 302 redirect. -/
def redirect_default_status : Nat := 302

/-- `RedirectResponse("/docs")` with the framework default status code. -/
def mkRedirectResponse (url : String) : RedirectResponse :=
  ⟨url, redirect_default_status⟩

/-- The root route handler (main.py lines 56-58):
`return RedirectResponse("/docs")`. -/
def root : RedirectResponse := mkRedirectResponse "/docs"

/-- The descriptor of the testable-properties example of the spec:
parameters n (int, required) and s (str, optional). -/
def exampleFunction : KernelFunctionMetadata :=
  { plugin_name := "SessionsTool"
    name := "example"
    description := none
    parameters :=
      [⟨"n", some "int", none, true⟩, ⟨"s", some "str", none, false⟩] }

/-- A descriptor with no parameters, for the zero-parameter edge case. -/
def noParamsFunction : KernelFunctionMetadata :=
  { plugin_name := "SessionsTool"
    name := "noargs"
    description := none
    parameters := [] }

/-- The metadata of the chat entry-point function registered under the
ChatBot plugin (main.py lines 80-84). -/
def chatFnMeta : KernelFunctionMetadata :=
  { plugin_name := chatBotPluginName
    name := "Chat"
    description := none
    parameters := [] }

/-- Helper: a filterMap with an if-guard is the map of the filter. -/
theorem filterMap_if_eq_filter_map {α β : Type} (l : List α) (pred : α → Bool)
    (g : α → β) :
    l.filterMap (fun a => if pred a then some (g a) else none)
      = (l.filter pred).map g := by
  induction l with
  | nil => rfl
  | cons a t ih => cases h : pred a <;> simp [List.filterMap_cons, List.filter_cons, h, ih]

/-- Helper: needing a refresh is preserved as time moves forward. -/
theorem needsRefresh_mono (state : Option AccessToken) (now later : Int)
    (h : needsRefresh state now = true) (hle : now ≤ later) :
    needsRefresh state later = true := by
  cases state with
  | none => rfl
  | some t =>
      simp only [needsRefresh, decide_eq_true_eq] at h ⊢
      exact lt_of_lt_of_le h hle

/-- C9: an HTTP GET request to the root path "/" returns a 302 redirect
to "/docs". -/
theorem root_redirects_to_docs : root.status_code = 302 ∧ root.url = "/docs" :=
  ⟨rfl, rfl⟩

/-- C5: schema synthesis maps each declared primitive type tag by the fixed
total table str to string, int to integer, float to number, bool to boolean,
list to array, dict to object, and to "string" for any unrecognized or
missing tag; synthesis is total and deterministic (a function producing one
entry per descriptor); and the example function with parameters n (int,
required) and s (str, optional) yields properties n integer and s string
with required ["n"]. -/
theorem schema_type_mapping_total :
    (schemaTypeFor (some "str") = "string" ∧
     schemaTypeFor (some "int") = "integer" ∧
     schemaTypeFor (some "float") = "number" ∧
     schemaTypeFor (some "bool") = "boolean" ∧
     schemaTypeFor (some "list") = "array" ∧
     schemaTypeFor (some "dict") = "object" ∧
     schemaTypeFor none = "string") ∧
    (∀ t : String, python_to_json_schema_type.lookup t = none →
        schemaTypeFor (some t) = "string") ∧
    (∀ available : List KernelFunctionMetadata,
        (toolsOf available).length = available.length) ∧
    (toolEntryOf exampleFunction).function.parameters.properties
        = [("n", ⟨"integer", ""⟩), ("s", ⟨"string", ""⟩)] ∧
    (toolEntryOf exampleFunction).function.parameters.required = ["n"] := by
  refine ⟨⟨rfl, rfl, rfl, rfl, rfl, rfl, rfl⟩, ?_, ?_, rfl, rfl⟩
  · intro t h
    simp [schemaTypeFor, h]
  · intro available
    simp [toolsOf]

/-- C5 witness: an unrecognized tag such as "tuple" is not a key of the
table and maps to "string". -/
theorem schema_type_mapping_total_witness :
    python_to_json_schema_type.lookup "tuple" = none ∧
    schemaTypeFor (some "tuple") = "string" :=
  ⟨by decide, schema_type_mapping_total.2.1 "tuple" (by decide)⟩

/-- C6: the synthesized required list consists of exactly the names of the
parameters whose required flag is true, in declaration order; a missing
description of the function or of a parameter becomes the empty string; and
a function with zero parameters yields empty properties and empty required
rather than an error. -/
theorem required_list_and_defaults (f : KernelFunctionMetadata) :
    (toolEntryOf f).function.parameters.required
        = (f.parameters.filter (fun p => p.is_required)).map (fun p => p.name) ∧
    (f.description = none → (toolEntryOf f).function.description = "") ∧
    (∀ p ∈ f.parameters, p.description = none →
        (p.name, PropertySchema.mk (schemaTypeFor p.type_) "")
          ∈ (toolEntryOf f).function.parameters.properties) ∧
    (f.parameters = [] →
        (toolEntryOf f).function.parameters.properties = [] ∧
        (toolEntryOf f).function.parameters.required = []) := by
  refine ⟨?_, ?_, ?_, ?_⟩
  · simp only [toolEntryOf]
    exact filterMap_if_eq_filter_map f.parameters (fun p => p.is_required) (fun p => p.name)
  · intro h
    simp [toolEntryOf, h]
  · intro p hp hd
    simp only [toolEntryOf, List.mem_map]
    exact ⟨p, hp, by simp [hd]⟩
  · intro h
    simp [toolEntryOf, h]

/-- C6 witness: the zero-parameter function yields empty properties and
required, its missing description becomes the empty string, and the
parameter n of the example function (missing description) appears with an
empty description string. -/
theorem required_list_and_defaults_witness :
    (toolEntryOf noParamsFunction).function.description = "" ∧
    (toolEntryOf noParamsFunction).function.parameters.properties = [] ∧
    (toolEntryOf noParamsFunction).function.parameters.required = [] ∧
    ("n", PropertySchema.mk (schemaTypeFor (some "int")) "")
      ∈ (toolEntryOf exampleFunction).function.parameters.properties :=
  ⟨(required_list_and_defaults noParamsFunction).2.1 rfl,
   ((required_list_and_defaults noParamsFunction).2.2.2 rfl).1,
   ((required_list_and_defaults noParamsFunction).2.2.2 rfl).2,
   (required_list_and_defaults exampleFunction).2.2.1
     ⟨"n", some "int", none, true⟩ (by simp [exampleFunction]) rfl⟩

/-- C1: the excluded-plugin set of the chat handler contains "ChatBot", the
plugin of the chat entry-point function; a function whose owning plugin is
in the excluded set is never among the available functions, and every
synthesized tool entry arises from a registered function whose plugin is
not excluded — so the chat entry point is absent from the tool list of the
ExecutionSettings built for its own completion request. -/
theorem chat_function_excluded_from_tools
    (registered : List KernelFunctionMetadata) (excluded : List String)
    (f : KernelFunctionMetadata) (hf : f.plugin_name ∈ excluded) :
    chatBotPluginName ∈ chatExcludedPlugins ∧
    f ∉ available_functions registered excluded ∧
    ∀ e ∈ toolsOf (available_functions registered excluded),
      ∃ g ∈ registered, g.plugin_name ∉ excluded ∧ e = toolEntryOf g := by
  refine ⟨by simp [chatBotPluginName, chatExcludedPlugins], ?_, ?_⟩
  · intro hmem
    rw [available_functions, List.mem_filter] at hmem
    simp only [decide_eq_true_eq] at hmem
    exact hmem.2 hf
  · intro e he
    rw [toolsOf, List.mem_map] at he
    obtain ⟨g, hg, rfl⟩ := he
    rw [available_functions, List.mem_filter] at hg
    simp only [decide_eq_true_eq] at hg
    exact ⟨g, hg.1, hg.2, rfl⟩

/-- C1 witness: with the Chat function and a sessions-tool function
registered and the excluded set of the chat handler, the Chat function is
not among the available functions. -/
theorem chat_function_excluded_from_tools_witness :
    chatBotPluginName ∈ chatExcludedPlugins ∧
    chatFnMeta ∉ available_functions [chatFnMeta, exampleFunction] chatExcludedPlugins :=
  ⟨(chat_function_excluded_from_tools [chatFnMeta, exampleFunction]
      chatExcludedPlugins chatFnMeta (by decide)).1,
   (chat_function_excluded_from_tools [chatFnMeta, exampleFunction]
      chatExcludedPlugins chatFnMeta (by decide)).2.1⟩

/-- C2 counterexample: at the instant now = expires_on (now ≥ expires_on)
the code returns the cached token unchanged and performs no issuer call,
contradicting the claim that a fresh token is requested whenever
now ≥ expires_on. -/
theorem cached_token_at_expiry_counterexample :
    (100 : Int) ≥ 100 ∧
    auth_callback "s" (fun _ => IssuerResult.ok ⟨"new", 200⟩)
        (some ⟨"old", 100⟩) 100
      = ⟨Except.ok "old", some ⟨"old", 100⟩, false⟩ :=
  ⟨by decide, rfl⟩

/-- C2 amended: a fresh token is requested exactly when no cached entry
exists or its expires_on is strictly less than the current whole-second UTC
time; when now ≤ expires_on the cached token is returned unchanged with no
issuer call; on a successful refresh the slot is overwritten with the fresh
token. -/
theorem token_refresh_boundary (scope : String) (credential : String → IssuerResult)
    (t : AccessToken) (now : Int) :
    (auth_callback scope credential none now).issuerCalled = true ∧
    (t.expires_on < now →
        (auth_callback scope credential (some t) now).issuerCalled = true) ∧
    (now ≤ t.expires_on →
        auth_callback scope credential (some t) now
          = ⟨Except.ok t.token, some t, false⟩) ∧
    (∀ tok, credential scope = IssuerResult.ok tok → t.expires_on < now →
        auth_callback scope credential (some t) now
          = ⟨Except.ok tok.token, some tok, true⟩) := by
  refine ⟨?_, ?_, ?_, ?_⟩
  · simp only [auth_callback, needsRefresh, if_true]
    cases credential scope <;> rfl
  · intro h
    simp only [auth_callback, needsRefresh, if_pos (decide_eq_true h)]
    cases credential scope <;> rfl
  · intro h
    simp [auth_callback, needsRefresh, not_lt.mpr h]
  · intro tok htok h
    simp [auth_callback, needsRefresh, h, htok]

/-- C2 amended witness: at now = 150 > expires_on = 100 the issuer is
called; at now = 50 ≤ 100 the cached token is returned unchanged. -/
theorem token_refresh_boundary_witness :
    (100 : Int) < 150 ∧
    (auth_callback "s" (fun _ => IssuerResult.ok ⟨"new", 200⟩)
        (some ⟨"old", 100⟩) 150).issuerCalled = true ∧
    (50 : Int) ≤ 100 ∧
    auth_callback "s" (fun _ => IssuerResult.ok ⟨"new", 200⟩)
        (some ⟨"old", 100⟩) 50
      = ⟨Except.ok "old", some ⟨"old", 100⟩, false⟩ :=
  ⟨by decide,
   (token_refresh_boundary "s" (fun _ => IssuerResult.ok ⟨"new", 200⟩)
      ⟨"old", 100⟩ 150).2.1 (by decide),
   by decide,
   (token_refresh_boundary "s" (fun _ => IssuerResult.ok ⟨"new", 200⟩)
      ⟨"old", 100⟩ 50).2.2.1 (by decide)⟩

/-- C3 counterexample: the chat handler calls auth_callback_factory anew on
every request, so the second of two sequential requests starts from an
empty slot and calls the issuer again at time 1 even though the token
obtained at time 0 by the first request is valid until 1000 — the cache is
per request, not process-wide. -/
theorem cache_not_process_wide_counterexample :
    (twoSequentialChatRequests (fun _ => IssuerResult.ok ⟨"tok1", 1000⟩) 0 1).1.issuerCalled
        = true ∧
    (1 : Int) < 1000 ∧
    (twoSequentialChatRequests (fun _ => IssuerResult.ok ⟨"tok1", 1000⟩) 0 1).2.issuerCalled
        = true :=
  ⟨rfl, by decide, rfl⟩

/-- C3 amended: each scope's cached record lives in closure state created
afresh by each chat request: both slots start empty on every request; the
record is created on the first use within the request, replaced only when
expired (left untouched while now ≤ expires_on), and a filled slot is never
destroyed for the closure's lifetime. -/
theorem cache_slot_lifecycle (scope : String) (credential : String → IssuerResult)
    (t : AccessToken) (now : Int) :
    chatFreshCreds.cogState = none ∧
    chatFreshCreds.sessState = none ∧
    (auth_callback scope credential none now).issuerCalled = true ∧
    (∀ tok, credential scope = IssuerResult.ok tok →
        (auth_callback scope credential none now).auth_token = some tok) ∧
    (now ≤ t.expires_on →
        (auth_callback scope credential (some t) now).auth_token = some t ∧
        (auth_callback scope credential (some t) now).issuerCalled = false) ∧
    (∀ (state : Option AccessToken) (m : Int),
        (auth_callback scope credential state m).auth_token = none → state = none) := by
  refine ⟨rfl, rfl, ?_, ?_, ?_, ?_⟩
  · simp only [auth_callback, needsRefresh, if_true]
    cases credential scope <;> rfl
  · intro tok htok
    simp [auth_callback, needsRefresh, htok]
  · intro h
    simp [auth_callback, needsRefresh, not_lt.mpr h]
  · intro state m hnone
    cases state with
    | none => rfl
    | some u =>
        by_cases hr : needsRefresh (some u) m = true
        · rw [auth_callback, if_pos hr] at hnone
          cases hcs : credential scope <;> rw [hcs] at hnone <;> simp at hnone
        · rw [auth_callback, if_neg hr] at hnone
          simp at hnone

/-- C3 amended witness: a fresh request slot is empty; the first use at
time 0 calls the issuer and fills the slot; at time 0 ≤ expires_on = 1000
a filled slot is returned untouched with no issuer call. -/
theorem cache_slot_lifecycle_witness :
    chatFreshCreds.cogState = none ∧
    (auth_callback "s" (fun _ => IssuerResult.ok ⟨"tok1", 1000⟩) none 0).issuerCalled
        = true ∧
    (auth_callback "s" (fun _ => IssuerResult.ok ⟨"tok1", 1000⟩) none 0).auth_token
        = some ⟨"tok1", 1000⟩ ∧
    (0 : Int) ≤ 1000 ∧
    (auth_callback "s" (fun _ => IssuerResult.ok ⟨"tok1", 1000⟩)
        (some ⟨"old", 1000⟩) 0).issuerCalled = false :=
  ⟨(cache_slot_lifecycle "s" (fun _ => IssuerResult.ok ⟨"tok1", 1000⟩)
      ⟨"old", 1000⟩ 0).1,
   (cache_slot_lifecycle "s" (fun _ => IssuerResult.ok ⟨"tok1", 1000⟩)
      ⟨"old", 1000⟩ 0).2.2.1,
   (cache_slot_lifecycle "s" (fun _ => IssuerResult.ok ⟨"tok1", 1000⟩)
      ⟨"old", 1000⟩ 0).2.2.2.1 ⟨"tok1", 1000⟩ rfl,
   by decide,
   ((cache_slot_lifecycle "s" (fun _ => IssuerResult.ok ⟨"tok1", 1000⟩)
      ⟨"old", 1000⟩ 0).2.2.2.2.1 (by decide)).2⟩

/-- C4: after a first call fills the slot, a second call strictly within the
validity window returns the identical token value with no issuer call, and
a call strictly after expires_on performs a new issuer call (each call
consults the issuer at most once, so exactly one new call). -/
theorem get_token_twice (scope : String) (credential : String → IssuerResult)
    (tok : AccessToken) (t1 t2 : Int)
    (hiss : credential scope = IssuerResult.ok tok) :
    (auth_callback scope credential none t1).result = Except.ok tok.token ∧
    (auth_callback scope credential none t1).issuerCalled = true ∧
    (t2 < tok.expires_on →
        (auth_callback scope credential
            (auth_callback scope credential none t1).auth_token t2).result
          = Except.ok tok.token ∧
        (auth_callback scope credential
            (auth_callback scope credential none t1).auth_token t2).issuerCalled
          = false) ∧
    (tok.expires_on < t2 →
        (auth_callback scope credential
            (auth_callback scope credential none t1).auth_token t2).issuerCalled
          = true) := by
  have h1 : auth_callback scope credential none t1
      = ⟨Except.ok tok.token, some tok, true⟩ := by
    simp [auth_callback, needsRefresh, hiss]
  refine ⟨by rw [h1], by rw [h1], ?_, ?_⟩
  · intro h2
    rw [h1]
    have := (token_refresh_boundary scope credential tok t2).2.2.1 (le_of_lt h2)
    rw [this]
    exact ⟨rfl, rfl⟩
  · intro h2
    rw [h1]
    exact (token_refresh_boundary scope credential tok t2).2.1 h2

/-- C4 witness: issuer grants a token expiring at 100; calls at times 0 and
50 return the same token with the issuer consulted only the first time; a
call at time 200 consults the issuer again. -/
theorem get_token_twice_witness :
    (auth_callback "s" (fun _ => IssuerResult.ok ⟨"tokA", 100⟩) none 0).result
        = Except.ok "tokA" ∧
    (auth_callback "s" (fun _ => IssuerResult.ok ⟨"tokA", 100⟩)
        (auth_callback "s" (fun _ => IssuerResult.ok ⟨"tokA", 100⟩) none 0).auth_token
        50).result = Except.ok "tokA" ∧
    (auth_callback "s" (fun _ => IssuerResult.ok ⟨"tokA", 100⟩)
        (auth_callback "s" (fun _ => IssuerResult.ok ⟨"tokA", 100⟩) none 0).auth_token
        50).issuerCalled = false ∧
    (auth_callback "s" (fun _ => IssuerResult.ok ⟨"tokA", 100⟩)
        (auth_callback "s" (fun _ => IssuerResult.ok ⟨"tokA", 100⟩) none 0).auth_token
        200).issuerCalled = true :=
  ⟨(get_token_twice "s" (fun _ => IssuerResult.ok ⟨"tokA", 100⟩)
      ⟨"tokA", 100⟩ 0 50 rfl).1,
   ((get_token_twice "s" (fun _ => IssuerResult.ok ⟨"tokA", 100⟩)
      ⟨"tokA", 100⟩ 0 50 rfl).2.2.1 (by decide)).1,
   ((get_token_twice "s" (fun _ => IssuerResult.ok ⟨"tokA", 100⟩)
      ⟨"tokA", 100⟩ 0 50 rfl).2.2.1 (by decide)).2,
   (get_token_twice "s" (fun _ => IssuerResult.ok ⟨"tokA", 100⟩)
      ⟨"tokA", 100⟩ 0 200 rfl).2.2.2 (by decide)⟩

/-- C7: the cognitive-services and dynamic-sessions scopes are distinct and
cached in separate independent slots: a step for one scope leaves the other
slot untouched; the outcome of a dynamic-sessions step depends only on the
dynamic-sessions slot (a token cached for the other scope can never be the
value returned); and the callback consults the issuer only at its own
scope. -/
theorem scope_isolation (credential credential2 : String → IssuerResult)
    (c c2 : ChatRequestCreds) (state : Option AccessToken) (now : Int)
    (hsess : c.sessState = c2.sessState)
    (hcred : credential dynamicSessionsScope = credential2 dynamicSessionsScope) :
    cognitiveServicesScope ≠ dynamicSessionsScope ∧
    (stepCog credential c now).2.sessState = c.sessState ∧
    (stepSess credential c now).2.cogState = c.cogState ∧
    (stepSess credential c now).1 = (stepSess credential c2 now).1 ∧
    auth_callback dynamicSessionsScope credential state now
      = auth_callback dynamicSessionsScope credential2 state now := by
  refine ⟨by decide, rfl, rfl, ?_, ?_⟩
  · simp [stepSess, hsess]
  · simp [auth_callback, hcred]

/-- C7 witness: with a fresh request state and an issuer that answers the
two scopes with different tokens, the dynamic-sessions step leaves the
cognitive slot empty and its result agrees for any state sharing the
sessions slot. -/
theorem scope_isolation_witness :
    cognitiveServicesScope ≠ dynamicSessionsScope ∧
    (stepSess (fun s => if s = dynamicSessionsScope then IssuerResult.ok ⟨"sessTok", 100⟩
        else IssuerResult.ok ⟨"cogTok", 100⟩) chatFreshCreds 0).2.cogState = none :=
  ⟨(scope_isolation (fun s => if s = dynamicSessionsScope then IssuerResult.ok ⟨"sessTok", 100⟩
        else IssuerResult.ok ⟨"cogTok", 100⟩)
      (fun s => if s = dynamicSessionsScope then IssuerResult.ok ⟨"sessTok", 100⟩
        else IssuerResult.ok ⟨"cogTok", 100⟩)
      chatFreshCreds chatFreshCreds none 0 rfl rfl).1,
   (scope_isolation (fun s => if s = dynamicSessionsScope then IssuerResult.ok ⟨"sessTok", 100⟩
        else IssuerResult.ok ⟨"cogTok", 100⟩)
      (fun s => if s = dynamicSessionsScope then IssuerResult.ok ⟨"sessTok", 100⟩
        else IssuerResult.ok ⟨"cogTok", 100⟩)
      chatFreshCreds chatFreshCreds none 0 rfl rfl).2.2.1⟩

/-- C8: when the issuer rejects a token request, the callback fails with a
FunctionExecutionException whose message is the fixed prefix followed by
the issuer's human-readable messages joined by spaces into a single string;
the slot keeps its previous value and the issuer is consulted exactly once,
with no retry. -/
theorem credential_error_propagation (scope : String)
    (credential : String → IssuerResult) (state : Option AccessToken)
    (now : Int) (msgs : List String)
    (hre : needsRefresh state now = true)
    (herr : credential scope = IssuerResult.authError msgs) :
    auth_callback scope credential state now
      = ⟨Except.error ⟨"Failed to retrieve the client auth token with messages: "
            ++ String.intercalate " " msgs⟩, state, true⟩ := by
  simp [auth_callback, hre, herr]

/-- C8 witness: with an empty slot and an issuer rejecting with messages
"bad" and "auth", the callback raises the exception carrying "bad auth" in
a single description string. -/
theorem credential_error_propagation_witness :
    needsRefresh none 0 = true ∧
    auth_callback "s" (fun _ => IssuerResult.authError ["bad", "auth"]) none 0
      = ⟨Except.error
          ⟨"Failed to retrieve the client auth token with messages: bad auth"⟩,
         none, true⟩ :=
  ⟨rfl, credential_error_propagation "s"
      (fun _ => IssuerResult.authError ["bad", "auth"]) none 0 ["bad", "auth"] rfl rfl⟩

/-- C10: if the credential issuer raises during a refresh attempt, the
cached slot for that scope is left exactly as it was, and a subsequent call
at any time not earlier than the failed one attempts the issuer again. -/
theorem issuer_failure_leaves_slot (scope : String)
    (credential : String → IssuerResult) (state : Option AccessToken)
    (now later : Int) (msgs : List String)
    (hre : needsRefresh state now = true)
    (herr : credential scope = IssuerResult.authError msgs)
    (hle : now ≤ later) :
    (auth_callback scope credential state now).auth_token = state ∧
    (auth_callback scope credential
        (auth_callback scope credential state now).auth_token later).issuerCalled
      = true := by
  have h1 : (auth_callback scope credential state now).auth_token = state := by
    simp [auth_callback, hre, herr]
  refine ⟨h1, ?_⟩
  rw [h1]
  have h2 : needsRefresh state later = true := needsRefresh_mono state now later hre hle
  rw [auth_callback.eq_def, if_pos h2]
  cases credential scope <;> rfl

/-- C10 witness: the issuer fails at time 0 with an expired token cached;
the slot still holds the old token and the retry at time 5 consults the
issuer again. -/
theorem issuer_failure_leaves_slot_witness :
    needsRefresh (some ⟨"old", (-1 : Int)⟩) 0 = true ∧
    (auth_callback "s" (fun _ => IssuerResult.authError ["down"])
        (some ⟨"old", (-1 : Int)⟩) 0).auth_token = some ⟨"old", (-1 : Int)⟩ ∧
    (auth_callback "s" (fun _ => IssuerResult.authError ["down"])
        (auth_callback "s" (fun _ => IssuerResult.authError ["down"])
            (some ⟨"old", (-1 : Int)⟩) 0).auth_token 5).issuerCalled = true :=
  ⟨by decide,
   (issuer_failure_leaves_slot "s" (fun _ => IssuerResult.authError ["down"])
      (some ⟨"old", (-1 : Int)⟩) 0 5 ["down"] (by decide) rfl (by decide)).1,
   (issuer_failure_leaves_slot "s" (fun _ => IssuerResult.authError ["down"])
      (some ⟨"old", (-1 : Int)⟩) 0 5 ["down"] (by decide) rfl (by decide)).2⟩

end SKWebApi
